import Mathlib

/-!
Shallow embedding of the Govee OpenAPI light integration (`light.py`).

The core logic lives in the `GoveeLight` entity class:
* `_build_capability` (the spec's Capability Resolver): looks up a
  capability descriptor by `type` in the device's capability list and
  renders a command payload fragment, or an empty sentinel on failure.
* `async_turn_on` / `async_turn_off`: optimistic on/off commands; local
  `_state` is set before the network call, re-confirmed on HTTP 200, and
  never rolled back on failure; `_skip_next_update` is set unconditionally
  at the end.
* `async_update` (the spec's `poll`): honours the one-shot
  `_skip_next_update` flag; otherwise fetches device state and, on HTTP
  200, dereferences the on/off capability entry of the response payload.
* `async_added_to_hass` (the spec's `initialize`): delegates to
  `async_update`.

Network exchanges are modelled by passing the HTTP response (status code
and parsed JSON body) as an explicit argument; whether a network exchange
actually happened is an explicit boolean output of the poll operation.
An unhandled Python exception (the `None` dereference in `async_update`)
is modelled as `Option.none`.
-/

namespace Govee

/-- A capability descriptor from the device record, as consumed by
`_build_capability`: the JSON dict has a `"type"` key and an optional
`"instance"` key (read with `.get("instance", "powerSwitch")`). -/
structure Capability where
  type : String
  inst : Option String
  deriving DecidableEq, Repr

/-- The value returned by `_build_capability`: either the empty dict `{}`
sentinel (resolution failure) or the dict
`{"type": name, "instance": inst, "value": value}`. -/
inductive CapabilityPayload where
  | empty : CapabilityPayload
  | mk (type : String) (inst : String) (value : Int) : CapabilityPayload
  deriving DecidableEq, Repr

/-- The `"state"` sub-object of one entry of the device-state response:
`{"value": v}`. -/
structure StateValue where
  value : Int
  deriving DecidableEq, Repr

/-- One entry of `json_payload["payload"]["capabilities"]` in the
device-state response: `{"type": t, "state": {"value": v}}`. -/
structure StateCapability where
  type : String
  state : StateValue
  deriving DecidableEq, Repr

/-- The `"payload"` object of the device-state response. -/
structure StatePayload where
  capabilities : List StateCapability
  deriving DecidableEq, Repr

/-- An HTTP response to the device-state request, as returned by
`_send_command`: the status code and the parsed JSON body. -/
structure PollResponse where
  status : Nat
  payload : StatePayload
  deriving DecidableEq, Repr

/-- The mutable fields of a `GoveeLight` entity (the spec's Device Proxy
State): `_state`, `_brightness`, `_rgb_color`, `_skip_next_update`. -/
structure ProxyState where
  state : Bool
  brightness : Nat
  rgb_color : Nat × Nat × Nat
  skip_next_update : Bool
  deriving DecidableEq, Repr

namespace GoveeLight

/-- `GoveeLight.__init__`: `_state = False`, `_brightness = 255`,
`_rgb_color = (255, 255, 255)`, `_skip_next_update = False`. -/
def init : ProxyState :=
  { state := false, brightness := 255, rgb_color := (255, 255, 255),
    skip_next_update := false }

/-- `GoveeLight._build_capability(name, value)`: find the first entry of
the device's capability list whose `"type"` equals `name`; if none,
log and return `{}`; otherwise return the payload dict with the entry's
`"instance"` (defaulting to `"powerSwitch"`) and the given value. -/
def build_capability (capabilities : List Capability) (name : String)
    (value : Int) : CapabilityPayload :=
  match capabilities.find? (fun item => item.type == name) with
  | none => CapabilityPayload.empty
  | some capability_def =>
      CapabilityPayload.mk name (capability_def.inst.getD "powerSwitch") value

/-- `GoveeLight.async_turn_on`: set `_state = True` optimistically, build
the capability payload, send the command; on HTTP 200 re-assign
`_state = True`, otherwise only log; finally set
`_skip_next_update = True` unconditionally. The HTTP status of the
command response is an explicit argument. -/
def async_turn_on (capabilities : List Capability) (s : ProxyState)
    (status : Nat) : ProxyState :=
  let s := { s with state := true }
  let _capability := build_capability capabilities "devices.capabilities.on_off" 1
  let s := if status = 200 then { s with state := true } else s
  { s with skip_next_update := true }

/-- `GoveeLight.async_turn_off`: set `_state = False` optimistically,
build the capability payload, send the command; on HTTP 200 re-assign
`_state = False`, otherwise only log; finally set
`_skip_next_update = True` unconditionally. -/
def async_turn_off (capabilities : List Capability) (s : ProxyState)
    (status : Nat) : ProxyState :=
  let s := { s with state := false }
  let _capability := build_capability capabilities "devices.capabilities.on_off" 0
  let s := if status = 200 then { s with state := false } else s
  { s with skip_next_update := true }

/-- `GoveeLight.async_update`: if `_skip_next_update` is set, clear it and
return without contacting the network; otherwise send the device-state
request (the response is an explicit argument). On HTTP 200, look up the
first `"devices.capabilities.on_off"` entry of the response payload with
`next(..., None)` and evaluate `on_off_json["state"]["value"] == 1` — if
no entry matched, that line dereferences `None` and raises, modelled as
`none`. On a non-200 status, only log. The second component records
whether the network was contacted. -/
def async_update (s : ProxyState) (resp : PollResponse) :
    Option ProxyState × Bool :=
  if s.skip_next_update then
    (some { s with skip_next_update := false }, false)
  else
    if resp.status = 200 then
      match resp.payload.capabilities.find?
          (fun item => item.type == "devices.capabilities.on_off") with
      | some on_off_json =>
          (some { s with state := on_off_json.state.value == 1 }, true)
      | none => (none, true)
    else
      (some s, true)

/-- `GoveeLight.async_added_to_hass`: awaits `self.async_update()`. -/
def async_added_to_hass (s : ProxyState) (resp : PollResponse) :
    Option ProxyState × Bool :=
  async_update s resp

/-- One externally-driven invocation of an entry point of the entity,
together with the HTTP response the vendor API would return for it. -/
inductive Event where
  | turnOn (status : Nat) : Event
  | turnOff (status : Nat) : Event
  | poll (resp : PollResponse) : Event
  deriving DecidableEq, Repr

/-- Whether an event is an on/off command (as opposed to a poll). -/
def Event.isCommand : Event → Bool
  | .turnOn _ => true
  | .turnOff _ => true
  | .poll _ => false

/-- Run one event against the entity state; `none` means the invocation
raised an unhandled exception. -/
def step (capabilities : List Capability) (s : ProxyState) :
    Event → Option ProxyState
  | .turnOn status => some (async_turn_on capabilities s status)
  | .turnOff status => some (async_turn_off capabilities s status)
  | .poll resp => (async_update s resp).1

/-- Run a sequence of events against the entity state, stopping at the
first unhandled exception. -/
def exec (capabilities : List Capability) (s : ProxyState) :
    List Event → Option ProxyState
  | [] => some s
  | e :: rest =>
      match step capabilities s e with
      | none => none
      | some s1 => exec capabilities s1 rest

/-- Whether the suppression flag is set after running a trace, given its
value before: one final `false` per poll, one final `true` per command. -/
def suppressAfter (b : Bool) : List Event → Bool
  | [] => b
  | e :: rest => suppressAfter e.isCommand rest

/-- Whether the last event of a trace is an on/off command. -/
def lastIsCommand : List Event → Bool
  | [] => false
  | [e] => e.isCommand
  | _ :: e :: rest => lastIsCommand (e :: rest)

theorem step_skip_eq (capabilities : List Capability) (s s' : ProxyState)
    (e : Event) (h : step capabilities s e = some s') :
    s'.skip_next_update = e.isCommand := by
  cases e with
  | turnOn status =>
      injection h with h
      subst h
      by_cases hs : status = 200 <;>
        simp [async_turn_on, Event.isCommand, hs]
  | turnOff status =>
      injection h with h
      subst h
      by_cases hs : status = 200 <;>
        simp [async_turn_off, Event.isCommand, hs]
  | poll resp =>
      simp only [step, async_update] at h
      by_cases hskip : s.skip_next_update = true
      · simp only [hskip, if_true] at h
        injection h with h
        subst h
        rfl
      · simp only [hskip, if_false] at h
        by_cases hst : resp.status = 200
        · simp only [hst, if_true] at h
          cases hfind : resp.payload.capabilities.find?
              (fun item => item.type == "devices.capabilities.on_off") with
          | none => rw [hfind] at h; exact absurd h (by simp)
          | some j =>
              rw [hfind] at h
              injection h with h
              subst h
              simp [Event.isCommand, Bool.not_eq_true _ |>.mp hskip]
        · simp only [hst, if_false] at h
          injection h with h
          subst h
          simpa [Event.isCommand] using Bool.not_eq_true _ |>.mp hskip

theorem exec_skip_eq (capabilities : List Capability) :
    ∀ (t : List Event) (s s' : ProxyState),
      exec capabilities s t = some s' →
      s'.skip_next_update = suppressAfter s.skip_next_update t := by
  intro t
  induction t with
  | nil =>
      intro s s' h
      injection h with h
      subst h
      rfl
  | cons e rest ih =>
      intro s s' h
      unfold exec at h
      cases hstep : step capabilities s e with
      | none => rw [hstep] at h; exact absurd h (by simp)
      | some s1 =>
          rw [hstep] at h
          rw [ih s1 s' h, suppressAfter, step_skip_eq capabilities s s1 e hstep]

theorem suppressAfter_false_eq_lastIsCommand :
    ∀ (t : List Event) (b : Bool), t ≠ [] → suppressAfter b t = lastIsCommand t := by
  intro t
  induction t with
  | nil => intro b h; exact absurd rfl h
  | cons e rest ih =>
      intro b _
      cases rest with
      | nil => rfl
      | cons f rest' =>
          show suppressAfter e.isCommand (f :: rest') = lastIsCommand (f :: rest')
          exact ih e.isCommand (by simp)

theorem suppressAfter_append_single (b : Bool) (t : List Event) (e : Event) :
    suppressAfter b (t ++ [e]) = e.isCommand := by
  induction t generalizing b with
  | nil => rfl
  | cons f rest ih => exact ih f.isCommand

theorem async_update_when_skipping (s : ProxyState) (resp : PollResponse)
    (h : s.skip_next_update = true) :
    async_update s resp = (some { s with skip_next_update := false }, false) := by
  unfold async_update
  simp [h]

theorem async_update_contacts_network (s : ProxyState) (resp : PollResponse)
    (h : s.skip_next_update = false) :
    (async_update s resp).2 = true := by
  unfold async_update
  simp only [h, Bool.false_eq_true, if_false]
  by_cases hst : resp.status = 200
  · simp only [hst, if_true]
    cases resp.payload.capabilities.find?
        (fun item => item.type == "devices.capabilities.on_off") <;> rfl
  · simp only [hst, if_false]

theorem async_update_result_skip (s s' : ProxyState) (resp : PollResponse)
    (h : (async_update s resp).1 = some s') :
    s'.skip_next_update = false := by
  have := step_skip_eq [] s s' (.poll resp) (by simpa [step] using h)
  simpa [Event.isCommand] using this

/-- C1: for every `turnOn` (resp. `turnOff`) invocation whose HTTP status
is not 200, the believed state `_state` equals `true` (resp. `false`)
after the call returns — the optimistic value assigned before the network
call is not rolled back on failure. -/
theorem command_failure_keeps_optimistic_state (capabilities : List Capability)
    (s : ProxyState) (status : Nat) (h : status ≠ 200) :
    (async_turn_on capabilities s status).state = true
    ∧ (async_turn_off capabilities s status).state = false := by
  unfold async_turn_on async_turn_off
  simp [h]

theorem command_failure_keeps_optimistic_state_witness :
    (500 ≠ 200)
    ∧ (async_turn_on [] init 500).state = true
    ∧ (async_turn_off [] init 500).state = false :=
  ⟨by decide,
   (command_failure_keeps_optimistic_state [] init 500 (by decide)).1,
   (command_failure_keeps_optimistic_state [] init 500 (by decide)).2⟩

/-- C2, counterexample: with `_skip_next_update` pending, the poll
performed by `async_added_to_hass` (the spec's `initialize`) does NOT
contact the network (second component `false`): it honours the
suppression flag rather than polling unconditionally. -/
theorem initialize_ignores_suppression_cex :
    async_added_to_hass (ProxyState.mk false 255 (255, 255, 255) true)
        (PollResponse.mk 200 (StatePayload.mk []))
      = (some (ProxyState.mk false 255 (255, 255, 255) false), false) := rfl

/-- C2, amended: `async_added_to_hass` performs exactly one poll (it is
literally a single call to `async_update`); that poll contacts the
network exactly when no suppression is pending, and from the construction
state (where `_skip_next_update = false`) it always contacts the
network. -/
theorem initialize_single_poll_contacts_iff_not_suppressed
    (s : ProxyState) (resp : PollResponse) :
    async_added_to_hass s resp = async_update s resp
    ∧ (async_added_to_hass s resp).2 = !s.skip_next_update
    ∧ (async_added_to_hass init resp).2 = true := by
  refine ⟨rfl, ?_, async_update_contacts_network init resp rfl⟩
  by_cases h : s.skip_next_update = true
  · show (async_update s resp).2 = !s.skip_next_update
    rw [async_update_when_skipping s resp h, h]
    rfl
  · have hf := Bool.not_eq_true _ |>.mp h
    show (async_update s resp).2 = !s.skip_next_update
    rw [async_update_contacts_network s resp hf, hf]
    rfl

/-- C3: in every reachable trace from the construction state,
`_skip_next_update` is true exactly when the last event was an on/off
command (the interval between a just-issued command and the next poll
attempt); and after each command, the first subsequent poll is skipped
(no network contact) while the poll after it contacts the network —
exactly one skip per command, never more and never fewer. -/
theorem suppress_one_shot_invariant (capabilities : List Capability) :
    (∀ (t : List Event) (s' : ProxyState),
        exec capabilities init t = some s' →
        (s'.skip_next_update = true ↔ lastIsCommand t = true))
    ∧ (∀ (t : List Event) (c : Event) (s' : ProxyState)
          (r1 r2 : PollResponse),
        c.isCommand = true →
        exec capabilities init (t ++ [c]) = some s' →
        (async_update s' r1).2 = false
        ∧ ∀ s'' : ProxyState, (async_update s' r1).1 = some s'' →
            (async_update s'' r2).2 = true) := by
  constructor
  · intro t s' h
    rw [exec_skip_eq capabilities t init s' h]
    cases t with
    | nil => simp [init, suppressAfter, lastIsCommand]
    | cons e rest =>
        rw [suppressAfter_false_eq_lastIsCommand (e :: rest)
          init.skip_next_update (by simp)]
  · intro t c s' r1 r2 hc h
    have hskip : s'.skip_next_update = true := by
      rw [exec_skip_eq capabilities (t ++ [c]) init s' h,
        suppressAfter_append_single, hc]
    refine ⟨?_, ?_⟩
    · rw [async_update_when_skipping s' r1 hskip]
    · intro s'' h2
      exact async_update_contacts_network s'' r2
        (async_update_result_skip s' s'' r1 h2)

theorem suppress_one_shot_invariant_witness :
    (exec [] init [Event.turnOn 200]
        = some (ProxyState.mk true 255 (255, 255, 255) true))
    ∧ ((ProxyState.mk true 255 (255, 255, 255) true).skip_next_update = true
        ↔ lastIsCommand [Event.turnOn 200] = true)
    ∧ (async_update (ProxyState.mk true 255 (255, 255, 255) true)
        (PollResponse.mk 404 (StatePayload.mk []))).2 = false :=
  ⟨rfl,
   (suppress_one_shot_invariant []).1 [Event.turnOn 200]
     (ProxyState.mk true 255 (255, 255, 255) true) rfl,
   ((suppress_one_shot_invariant []).2 [] (Event.turnOn 200)
     (ProxyState.mk true 255 (255, 255, 255) true)
     (PollResponse.mk 404 (StatePayload.mk []))
     (PollResponse.mk 404 (StatePayload.mk [])) rfl rfl).1⟩

/-- C4: after every completed `turnOn` or `turnOff`, whatever the HTTP
status, `_skip_next_update` is true — the flag is set unconditionally at
the end of both commands, so the poll following a failed command is also
skipped. -/
theorem command_always_suppresses_next_poll (capabilities : List Capability)
    (s : ProxyState) (status : Nat) :
    (async_turn_on capabilities s status).skip_next_update = true
    ∧ (async_turn_off capabilities s status).skip_next_update = true := by
  unfold async_turn_on async_turn_off
  by_cases h : status = 200 <;> simp [h]

/-- C5: a poll from a state with `_skip_next_update` set clears the flag
and returns with no network exchange and `_state` unchanged; after any
successful poll a further poll (no intervening command) contacts the
network, and a poll from a non-suppressed state contacts the network —
so two consecutive polls with no intervening command both perform a real
fetch, and suppression never persists past one poll. -/
theorem poll_suppression_never_persists (s s1 : ProxyState)
    (r1 r2 : PollResponse) :
    (s.skip_next_update = true →
        async_update s r1 = (some { s with skip_next_update := false }, false))
    ∧ ((async_update s r1).1 = some s1 → (async_update s1 r2).2 = true)
    ∧ (s.skip_next_update = false → (async_update s r1).2 = true) :=
  ⟨fun h => async_update_when_skipping s r1 h,
   fun h => async_update_contacts_network s1 r2
     (async_update_result_skip s s1 r1 h),
   fun h => async_update_contacts_network s r1 h⟩

theorem poll_suppression_never_persists_witness :
    ((ProxyState.mk false 255 (255, 255, 255) true).skip_next_update = true)
    ∧ async_update (ProxyState.mk false 255 (255, 255, 255) true)
        (PollResponse.mk 404 (StatePayload.mk []))
      = (some (ProxyState.mk false 255 (255, 255, 255) false), false)
    ∧ (async_update (ProxyState.mk false 255 (255, 255, 255) false)
        (PollResponse.mk 404 (StatePayload.mk []))).2 = true :=
  ⟨rfl,
   (poll_suppression_never_persists
     (ProxyState.mk false 255 (255, 255, 255) true)
     (ProxyState.mk false 255 (255, 255, 255) false)
     (PollResponse.mk 404 (StatePayload.mk []))
     (PollResponse.mk 404 (StatePayload.mk []))).1 rfl,
   (poll_suppression_never_persists
     (ProxyState.mk false 255 (255, 255, 255) true)
     (ProxyState.mk false 255 (255, 255, 255) false)
     (PollResponse.mk 404 (StatePayload.mk []))
     (PollResponse.mk 404 (StatePayload.mk []))).2.1 rfl⟩

/-- C6: a non-suppressed poll receiving HTTP 200 whose payload contains
an on/off capability entry sets `_state` to (the first such entry's state
value == 1); in particular a reported value of 0 makes `_state` false. -/
theorem poll_success_sets_state_from_on_off (s : ProxyState)
    (resp : PollResponse) (entry : StateCapability)
    (hskip : s.skip_next_update = false) (hstatus : resp.status = 200)
    (hfind : resp.payload.capabilities.find?
        (fun item => item.type == "devices.capabilities.on_off")
      = some entry) :
    async_update s resp
      = (some { s with state := entry.state.value == 1 }, true) := by
  unfold async_update
  simp [hskip, hstatus, hfind]

theorem poll_success_sets_state_from_on_off_witness :
    (init.skip_next_update = false)
    ∧ (async_update init (PollResponse.mk 200 (StatePayload.mk
        [StateCapability.mk "devices.capabilities.on_off"
          (StateValue.mk 0)]))).1
      = some { init with state := false } :=
  ⟨rfl, by
    rw [poll_success_sets_state_from_on_off init
      (PollResponse.mk 200 (StatePayload.mk
        [StateCapability.mk "devices.capabilities.on_off" (StateValue.mk 0)]))
      (StateCapability.mk "devices.capabilities.on_off" (StateValue.mk 0))
      rfl rfl rfl]
    decide⟩

/-- C7: a non-suppressed poll whose HTTP status is not 200 leaves the
entity state (both `_state` and `_skip_next_update`) exactly unchanged —
the failed poll is a no-op on local state. -/
theorem poll_failure_is_noop (s : ProxyState) (resp : PollResponse)
    (hskip : s.skip_next_update = false) (hstatus : resp.status ≠ 200) :
    async_update s resp = (some s, true) := by
  unfold async_update
  simp [hskip, hstatus]

theorem poll_failure_is_noop_witness :
    (init.skip_next_update = false)
    ∧ ((500 : Nat) ≠ 200)
    ∧ async_update init (PollResponse.mk 500 (StatePayload.mk []))
      = (some init, true) :=
  ⟨rfl, by decide,
   poll_failure_is_noop init (PollResponse.mk 500 (StatePayload.mk []))
     rfl (by decide)⟩

/-- C8: when the capability list contains a matching entry,
`_build_capability` returns the payload built from the FIRST entry whose
type equals the requested name, defaulting its instance to
`"powerSwitch"` when absent. -/
theorem resolve_returns_first_match (pre post : List Capability)
    (entry : Capability) (name : String) (value : Int)
    (hpre : ∀ e ∈ pre, e.type ≠ name) (hentry : entry.type = name) :
    build_capability (pre ++ entry :: post) name value
      = CapabilityPayload.mk name (entry.inst.getD "powerSwitch") value := by
  have h1 : pre.find? (fun item => item.type == name) = none := by
    rw [List.find?_eq_none]
    intro e he
    simpa using hpre e he
  have h2 : List.find? (fun item => item.type == name) (entry :: post)
      = some entry := by
    rw [List.find?_cons_of_pos]
    simpa using hentry
  simp [build_capability, List.find?_append, h1, h2]

theorem resolve_returns_first_match_witness :
    (∀ e ∈ ([] : List Capability), e.type ≠ "devices.capabilities.on_off")
    ∧ build_capability
        [Capability.mk "devices.capabilities.on_off" (some "powerSwitch")]
        "devices.capabilities.on_off" 1
      = CapabilityPayload.mk "devices.capabilities.on_off" "powerSwitch" 1 :=
  ⟨by simp,
   resolve_returns_first_match [] []
     (Capability.mk "devices.capabilities.on_off" (some "powerSwitch"))
     "devices.capabilities.on_off" 1 (by simp) rfl⟩

/-- C9: when no entry of the capability list has the requested type
(including the empty list), `_build_capability` returns the empty `{}`
sentinel; the lookup is total, so no exception is raised. -/
theorem resolve_missing_returns_sentinel (capabilities : List Capability)
    (name : String) (value : Int)
    (h : ∀ e ∈ capabilities, e.type ≠ name) :
    build_capability capabilities name value = CapabilityPayload.empty := by
  have h1 : capabilities.find? (fun item => item.type == name) = none := by
    rw [List.find?_eq_none]
    intro e he
    simpa using h e he
  unfold build_capability
  rw [h1]

theorem resolve_missing_returns_sentinel_witness :
    (∀ e ∈ ([] : List Capability), e.type ≠ "devices.capabilities.on_off")
    ∧ build_capability [] "devices.capabilities.on_off" 1
      = CapabilityPayload.empty :=
  ⟨by simp,
   resolve_missing_returns_sentinel [] "devices.capabilities.on_off" 1
     (by simp)⟩

/-- C10: a non-suppressed poll receiving HTTP 200 whose payload contains
no `"devices.capabilities.on_off"` entry dereferences the `None` lookup
result and raises (modelled as `none`) instead of leaving local state
merely stale; the network was contacted. -/
theorem poll_missing_on_off_raises (s : ProxyState) (resp : PollResponse)
    (hskip : s.skip_next_update = false) (hstatus : resp.status = 200)
    (hfind : resp.payload.capabilities.find?
        (fun item => item.type == "devices.capabilities.on_off") = none) :
    async_update s resp = (none, true) := by
  unfold async_update
  simp [hskip, hstatus, hfind]

theorem poll_missing_on_off_raises_witness :
    (init.skip_next_update = false)
    ∧ async_update init (PollResponse.mk 200 (StatePayload.mk []))
      = (none, true) :=
  ⟨rfl,
   poll_missing_on_off_raises init (PollResponse.mk 200 (StatePayload.mk []))
     rfl rfl rfl⟩

end GoveeLight

end Govee
